import Mathlib

/-!
Verification of the routing and tunneling core of the `gateway` repository.

The repository is a small Go API gateway (three near-duplicate variants of
one design, in `main.go` and `unnamed/part_000`).  We give a shallow
embedding of the code the specification talks about:

* the Go string primitives the gateway uses (`strings.HasPrefix`,
  `strings.TrimPrefix`, `strings.Contains`, `strings.ToLower`), modelled on
  `List Char`;
* the path-rewriting director installed by `reverseProxy` (strips the
  `/stock` or `/service-b` route prefix);
* the WebSocket upgrade classifier used by the tunnel route handlers;
* `proxyWebSocket`, the hijack-based duplex tunnel, as a function from an
  environment (dial / hijack / replay success, and the two post-handshake
  byte streams) to the observable result of the session, with `io.Copy`
  modelled as the buffered copy loop it is;
* the `net/http` ServeMux dispatch over the registered route patterns;
* the `/ws` path rewrite of the ReverseProxy-based WebSocket variant.

Byte streams are `List Nat`; header values and paths are `List Char`.
-/

/-- Strings of the embedding: Go strings as lists of characters. -/
abbrev Str := List Char

/-! ## Go string primitives -/

/-- Go `strings.HasPrefix s pre`. -/
def hasPrefixGo (s pre : Str) : Bool :=
  pre.isPrefixOf s

/-- Go `strings.TrimPrefix s pre`: removes `pre` from the front of `s` when
present, otherwise returns `s` unchanged. -/
def trimPrefixGo (s pre : Str) : Str :=
  if hasPrefixGo s pre then s.drop pre.length else s

/-- Go `strings.ToLower` (ASCII case mapping, which is all the gateway's
header comparisons rely on). -/
def toLowerGo (s : Str) : Str :=
  s.map Char.toLower

/-- Go `strings.Contains s sub`: substring containment, by scanning every
suffix of `s` for `sub` as a prefix. -/
def containsGo : Str → Str → Bool
  | [], sub => sub.isPrefixOf []
  | s@(_ :: t), sub => sub.isPrefixOf s || containsGo t sub

theorem hasPrefixGo_iff (s pre : Str) : hasPrefixGo s pre = true ↔ pre <+: s := by
  simp [hasPrefixGo, List.isPrefixOf_iff_prefix]

theorem containsGo_iff (s sub : Str) : containsGo s sub = true ↔ sub <:+: s := by
  induction s with
  | nil =>
    simp [containsGo, List.isPrefixOf_iff_prefix]
  | cons a t ih =>
    simp [containsGo, ih, List.isPrefixOf_iff_prefix, List.infix_cons_iff]

/-! ## Requests and headers -/

/-- The parts of an inbound HTTP request the gateway's core logic reads. -/
structure HttpRequest where
  method : Str
  path : Str
  query : Str
  headers : List (Str × Str)
  body : List Nat
deriving Repr, DecidableEq

/-- Go `http.Header.Get`: the value of the first header with the given
(canonical) key, or the empty string. -/
def headerGet (headers : List (Str × Str)) (key : Str) : Str :=
  match headers.find? (fun h => h.1 == key) with
  | some h => h.2
  | none => []

/-! ## WebSocket upgrade classifier

From the tunnel route handler in `main`:
`strings.Contains(strings.ToLower(r.Header.Get("Connection")), "upgrade") &&
 strings.ToLower(r.Header.Get("Upgrade")) == "websocket"`. -/

/-- The upgrade classifier, on the two header values it inspects. -/
def isUpgradeRequest (connection upgrade : Str) : Bool :=
  containsGo (toLowerGo connection) "upgrade".data &&
    toLowerGo upgrade == "websocket".data

/-- C2: the classifier accepts exactly when the lowercased `Connection`
value contains `upgrade` as a substring and the lowercased `Upgrade` value
equals `websocket`. -/
theorem isUpgradeRequest_iff (connection upgrade : Str) :
    isUpgradeRequest connection upgrade = true ↔
      "upgrade".data <:+: toLowerGo connection ∧
        toLowerGo upgrade = "websocket".data := by
  simp [isUpgradeRequest, containsGo_iff]

/-! ## HTTP path-rewriting proxy

From `reverseProxy` in `main.go` and `unnamed/part_000`: the overridden
`Director` strips the `/stock` (or `/service-b`) route prefix from the
request path when the path starts with the prefix followed by `/`; nothing
else about the request is touched by the gateway's code. -/

/-- The path rewrite performed by the overridden `Director`. -/
def stripRoutePath (p : Str) : Str :=
  if hasPrefixGo p "/stock/".data then trimPrefixGo p "/stock".data
  else if hasPrefixGo p "/service-b/".data then trimPrefixGo p "/service-b".data
  else p

/-- The overridden `Director` as a request transformation: only the path
changes. -/
def directorRewrite (r : HttpRequest) : HttpRequest :=
  { r with path := stripRoutePath r.path }

/-- Abstract environment for one HTTP proxy exchange. -/
structure ProxyEnv where
  targetParseOk : Bool
  backendReachable : Bool
  backendStatus : Nat
  backendBody : List Nat
deriving Repr, DecidableEq

/-- Observable outcome of one HTTP proxy exchange. -/
inductive ProxyOutcome where
  | internalError
  | badGateway
  | success (status : Nat) (body : List Nat)
deriving Repr, DecidableEq

/-- Result of `reverseProxy`: the response to the client, the number of
backend round-trip attempts, and the request forwarded to the backend (if
any). -/
structure ProxyResult where
  outcome : ProxyOutcome
  attempts : Nat
  forwarded : Option HttpRequest
deriving Repr, DecidableEq

/-- The `reverseProxy` handler: parse the target (`url.Parse`; failure is a
500), run the director over the request, perform a single round trip
(`httputil.ReverseProxy` never retries), and on transport failure run the
error handler, which responds Bad Gateway (502). -/
def reverseProxy (env : ProxyEnv) (r : HttpRequest) : ProxyResult :=
  if !env.targetParseOk then
    { outcome := .internalError, attempts := 0, forwarded := none }
  else if !env.backendReachable then
    { outcome := .badGateway, attempts := 1, forwarded := some (directorRewrite r) }
  else
    { outcome := .success env.backendStatus env.backendBody, attempts := 1,
      forwarded := some (directorRewrite r) }

/-! ## ReverseProxy-based WebSocket variant (second document of `main.go`)

Its `Director` override: a path with prefix `/ws2` becomes `/ws`, else a
path with prefix `/ws` becomes `/ws`, else the path is untouched. -/

/-- The WebSocket path rewrite of `websocketProxy`. -/
def wsPathRewrite (p : Str) : Str :=
  if hasPrefixGo p "/ws2".data then "/ws".data
  else if hasPrefixGo p "/ws".data then "/ws".data
  else p

/-! ## Duplex stream tunnel (`proxyWebSocket`)

The hijack-based tunnel of `main.go` (first document) and
`unnamed/part_000`:

1. `net.Dial` to the backend; failure responds 502 and returns;
2. hijack the client connection; an unsupported or failed hijack responds
   500 and returns (the deferred close of the backend connection runs);
3. `r.Write(backendConn)` replays the serialized request; failure returns;
4. `go io.Copy(backendConn, clientConn); io.Copy(clientConn, backendConn)`
   relays bytes both ways; deferred closes release both sockets.

`io.Copy` is modelled as what it is: a loop that repeatedly reads at most
one buffer (32768 bytes) from the source and writes that chunk to the
destination, until the source is exhausted. -/

/-- The buffer size `io.Copy` uses. -/
def copyBufSize : Nat := 32768

/-- The `io.Copy` loop: the sequence of bytes written to the destination
when the source stream delivers `src`. -/
def ioCopy (src : List Nat) : List Nat :=
  if src = [] then [] else src.take copyBufSize ++ ioCopy (src.drop copyBufSize)
termination_by src.length
decreasing_by
  rename_i h
  have h1 : 0 < src.length := List.length_pos.mpr h
  simp only [List.length_drop, copyBufSize]
  omega

/-- The copy loop is the identity on the byte stream: chunking by the
buffer and concatenating in order reproduces the source exactly. -/
theorem ioCopy_eq_id (src : List Nat) : ioCopy src = src := by
  rw [ioCopy]
  split
  · rename_i h
    exact h.symm
  · rename_i hne
    rw [ioCopy_eq_id (src.drop copyBufSize), List.take_append_drop]
termination_by src.length
decreasing_by
  rename_i hne
  have h1 : 0 < src.length := List.length_pos.mpr hne
  simp only [List.length_drop, copyBufSize]
  omega

/-- Go serialization of a request (`http.Request.Write`): request line,
headers, a blank line, then the buffered body bytes. -/
def serializeRequest (r : HttpRequest) : List Nat :=
  ((r.method ++ [' '] ++ r.path ++
      (if r.query = [] then [] else '?' :: r.query) ++ " HTTP/1.1\r\n".data ++
      (r.headers.map (fun h => h.1 ++ ": ".data ++ h.2 ++ ['\r', '\n'])).flatten ++
      ['\r', '\n']).map Char.toNat) ++ r.body

/-- Environment of one tunnel session: whether each fallible step succeeds,
and the two byte streams that arrive after the handshake. -/
structure TunnelEnv where
  dialOk : Bool
  hijackSupported : Bool
  hijackOk : Bool
  writeOk : Bool
  clientStream : List Nat
  backendStream : List Nat
deriving Repr, DecidableEq

/-- How a tunnel session ended. -/
inductive TunnelOutcome where
  | badGateway
  | internalError
  | replayFailed
  | relayed
deriving Repr, DecidableEq

/-- Observable result of one `proxyWebSocket` session. -/
structure TunnelResult where
  outcome : TunnelOutcome
  dialAttempts : Nat
  hijacked : Bool
  backendWritten : List Nat
  clientWritten : List Nat
  backendClosed : Bool
  clientClosed : Bool
deriving Repr, DecidableEq

/-- The `proxyWebSocket` handler. -/
def proxyWebSocket (env : TunnelEnv) (r : HttpRequest) : TunnelResult :=
  if !env.dialOk then
    { outcome := .badGateway, dialAttempts := 1, hijacked := false,
      backendWritten := [], clientWritten := [],
      backendClosed := false, clientClosed := false }
  else if !env.hijackSupported then
    { outcome := .internalError, dialAttempts := 1, hijacked := false,
      backendWritten := [], clientWritten := [],
      backendClosed := true, clientClosed := false }
  else if !env.hijackOk then
    { outcome := .internalError, dialAttempts := 1, hijacked := false,
      backendWritten := [], clientWritten := [],
      backendClosed := true, clientClosed := false }
  else if !env.writeOk then
    { outcome := .replayFailed, dialAttempts := 1, hijacked := true,
      backendWritten := [], clientWritten := [],
      backendClosed := true, clientClosed := true }
  else
    { outcome := .relayed, dialAttempts := 1, hijacked := true,
      backendWritten := serializeRequest r ++ ioCopy env.clientStream,
      clientWritten := ioCopy env.backendStream,
      backendClosed := true, clientClosed := true }

/-- Result of the tunnel route handler registered in `main`. -/
inductive WsHandlerResult where
  | badRequest
  | tunneled (result : TunnelResult)
deriving Repr, DecidableEq

/-- The tunnel route handler: classify, then either run the tunnel or
respond Bad Request (400). -/
def wsHandler (env : TunnelEnv) (r : HttpRequest) : WsHandlerResult :=
  if isUpgradeRequest (headerGet r.headers "Connection".data)
      (headerGet r.headers "Upgrade".data) then
    .tunneled (proxyWebSocket env r)
  else
    .badRequest

/-- Backend dial attempts performed by a tunnel route handler result. -/
def wsDialAttempts : WsHandlerResult → Nat
  | .badRequest => 0
  | .tunneled res => res.dialAttempts

/-! ## ServeMux dispatch

`main` registers its handlers on the default `net/http` ServeMux.  A
pattern ending in `/` matches every path it is a prefix of; any other
pattern matches only the identical path; among the matching patterns the
longest wins; when none matches the mux responds 404 Not Found.  The
patterns below are those registered by `unnamed/part_000` (the variant with
both `/ws` and `/ws/` routes). -/

/-- Go `ServeMux` path matching for one registered pattern. -/
def pathMatch (pat path : Str) : Bool :=
  match pat.getLast? with
  | none => false
  | some c => if c = '/' then hasPrefixGo path pat else pat == path

/-- Fold step of the mux lookup: compare one registered pattern against the
best match found so far. -/
def muxPick (pat path : Str) : Option Str → Option Str
  | none => if pathMatch pat path then some pat else none
  | some best =>
    if pathMatch pat path && best.length < pat.length then some pat
    else some best

/-- The longest registered pattern matching `path`, earlier registration
winning ties. -/
def muxBest : List Str → Str → Option Str
  | [], _ => none
  | pat :: rest, path => muxPick pat path (muxBest rest path)

/-- Mux dispatch decision. -/
inductive MuxDecision where
  | handler (pattern : Str)
  | notFound
deriving Repr, DecidableEq

/-- ServeMux dispatch over a pattern table. -/
def serveMux (patterns : List Str) (path : Str) : MuxDecision :=
  match muxBest patterns path with
  | some pat => .handler pat
  | none => .notFound

/-- The route patterns registered by `main`. -/
def gatewayPatterns : List Str :=
  ["/stock/".data, "/service-b/".data, "/ws".data, "/ws/".data]

theorem muxBest_eq_none_iff (patterns : List Str) (path : Str) :
    muxBest patterns path = none ↔
      ∀ pat ∈ patterns, pathMatch pat path = false := by
  induction patterns with
  | nil => simp [muxBest]
  | cons pat rest ih =>
    simp only [muxBest, List.mem_cons]
    cases hrest : muxBest rest path with
    | none =>
      have hall : ∀ q ∈ rest, pathMatch q path = false := ih.mp hrest
      simp only [muxPick]
      constructor
      · intro h q hq
        cases hpm : pathMatch pat path with
        | true => rw [hpm] at h; simp at h
        | false =>
          rcases hq with hq | hq
          · rw [hq]; exact hpm
          · exact hall q hq
      · intro h
        have hpm : pathMatch pat path = false := h pat (Or.inl rfl)
        simp [hpm]
    | some best =>
      simp only [muxPick]
      constructor
      · intro h
        split at h <;> exact Option.noConfusion h
      · intro h
        have hall : ∀ q ∈ rest, pathMatch q path = false :=
          fun q hq => h q (Or.inr hq)
        rw [ih.mpr hall] at hrest
        exact Option.noConfusion hrest

/-! ## Helper lemmas -/

theorem trimPrefixGo_eq_drop (p pre : Str) (h : hasPrefixGo p pre = true) :
    trimPrefixGo p pre = p.drop pre.length := by
  simp [trimPrefixGo, h]

theorem prefixAppendDrop (pre p : Str) (h : pre <+: p) :
    pre ++ p.drop pre.length = p := by
  rcases h with ⟨t, ht⟩
  subst ht
  rw [List.drop_left]

theorem stripRoutePath_eq_drop (p pre : Str)
    (hpre : pre = "/stock".data ∨ pre = "/service-b".data)
    (hmatch : hasPrefixGo p (pre ++ ['/']) = true) :
    stripRoutePath p = p.drop pre.length := by
  have hp : (pre ++ ['/']) <+: p := (hasPrefixGo_iff _ _).mp hmatch
  have hpp : pre <+: p := (List.prefix_append pre ['/']).trans hp
  rcases hpre with h | h
  · subst h
    have h1 : hasPrefixGo p "/stock/".data = true := by
      rw [hasPrefixGo_iff]
      exact hp
    rw [stripRoutePath, if_pos h1,
      trimPrefixGo_eq_drop p _ ((hasPrefixGo_iff _ _).mpr hpp)]
  · subst h
    have h1 : hasPrefixGo p "/service-b/".data = true := by
      rw [hasPrefixGo_iff]
      exact hp
    have h0 : hasPrefixGo p "/stock/".data = false := by
      cases hx : hasPrefixGo p "/stock/".data with
      | false => rfl
      | true =>
        have hs : "/stock/".data <+: p := (hasPrefixGo_iff _ _).mp hx
        have hsv : "/stock/".data <+: "/service-b/".data :=
          List.prefix_of_prefix_length_le hs ((hasPrefixGo_iff _ _).mp h1) (by decide)
        exact absurd hsv (by decide)
    rw [stripRoutePath, if_neg (by simp [h0]), if_pos h1,
      trimPrefixGo_eq_drop p _ ((hasPrefixGo_iff _ _).mpr hpp)]

/-! ## Claim theorems -/

/-- C1: a request whose path starts with a configured route prefix
(`/stock` or `/service-b`) followed by `/` is forwarded with exactly that
prefix removed from the path (byte-exact removal), while method, query
string, headers, and body are forwarded unchanged. -/
theorem forwardStripsRoutePrefixExactly (env : ProxyEnv) (r : HttpRequest)
    (pre : Str)
    (hpre : pre = "/stock".data ∨ pre = "/service-b".data)
    (hmatch : hasPrefixGo r.path (pre ++ ['/']) = true)
    (hparse : env.targetParseOk = true) :
    ∃ f, (reverseProxy env r).forwarded = some f ∧
      pre ++ f.path = r.path ∧
      f.path = r.path.drop pre.length ∧
      f.method = r.method ∧ f.query = r.query ∧
      f.headers = r.headers ∧ f.body = r.body := by
  have hstrip : stripRoutePath r.path = r.path.drop pre.length :=
    stripRoutePath_eq_drop r.path pre hpre hmatch
  have hpp : pre <+: r.path :=
    (List.prefix_append pre ['/']).trans ((hasPrefixGo_iff _ _).mp hmatch)
  refine ⟨directorRewrite r, ?_, ?_, ?_, rfl, rfl, rfl, rfl⟩
  · cases hb : env.backendReachable <;> simp [reverseProxy, hparse, hb]
  · show pre ++ stripRoutePath r.path = r.path
    rw [hstrip]
    exact prefixAppendDrop pre r.path hpp
  · exact hstrip

/-- Closed instance of C1: `/stock/items?id=5` is forwarded with path
`/items`, query `id=5`, and method, headers, and body untouched. -/
theorem forwardStripsRoutePrefixExactly_witness :
    ∃ f, (reverseProxy ⟨true, true, 200, []⟩
        ⟨"GET".data, "/stock/items".data, "id=5".data, [], []⟩).forwarded = some f ∧
      "/stock".data ++ f.path = "/stock/items".data ∧
      f.path = "/stock/items".data.drop "/stock".data.length ∧
      f.method = "GET".data ∧ f.query = "id=5".data ∧
      f.headers = ([] : List (Str × Str)) ∧ f.body = ([] : List Nat) :=
  forwardStripsRoutePrefixExactly ⟨true, true, 200, []⟩
    ⟨"GET".data, "/stock/items".data, "id=5".data, [], []⟩
    "/stock".data (Or.inl rfl) (by decide) rfl

/-- C3: a request on a tunnel route that fails the upgrade classifier gets
a Bad Request response and causes zero backend dial attempts. -/
theorem nonUpgradeTunnelRequestRejected (env : TunnelEnv) (r : HttpRequest)
    (h : isUpgradeRequest (headerGet r.headers "Connection".data)
        (headerGet r.headers "Upgrade".data) = false) :
    wsHandler env r = .badRequest ∧ wsDialAttempts (wsHandler env r) = 0 := by
  simp [wsHandler, h, wsDialAttempts]

/-- Closed instance of C3: a plain GET without upgrade headers on the
tunnel route is rejected without dialing. -/
theorem nonUpgradeTunnelRequestRejected_witness :
    wsHandler ⟨true, true, true, true, [], []⟩
        ⟨"GET".data, "/ws".data, [], [], []⟩ = .badRequest ∧
      wsDialAttempts (wsHandler ⟨true, true, true, true, [], []⟩
        ⟨"GET".data, "/ws".data, [], [], []⟩) = 0 :=
  nonUpgradeTunnelRequestRejected ⟨true, true, true, true, [], []⟩
    ⟨"GET".data, "/ws".data, [], [], []⟩ (by decide)

/-- C4: in a session where dial, hijack, and replay all succeed, the relay
is the identity on each direction's byte stream: the backend reads exactly
the handshake followed by the client's bytes in order, and the client reads
exactly the backend's bytes in order. -/
theorem relayIsIdentityOnStreams (env : TunnelEnv) (r : HttpRequest)
    (hd : env.dialOk = true) (hs : env.hijackSupported = true)
    (hh : env.hijackOk = true) (hw : env.writeOk = true) :
    (proxyWebSocket env r).backendWritten =
        serializeRequest r ++ env.clientStream ∧
      (proxyWebSocket env r).clientWritten = env.backendStream := by
  simp [proxyWebSocket, hd, hs, hh, hw, ioCopy_eq_id]

/-- Closed instance of C4: payload `[1, 2, 3]` from the client arrives
verbatim after the handshake, and `[7, 8]` from the backend arrives
verbatim at the client. -/
theorem relayIsIdentityOnStreams_witness :
    (proxyWebSocket ⟨true, true, true, true, [1, 2, 3], [7, 8]⟩
        ⟨"GET".data, "/ws".data, [], [], []⟩).backendWritten =
      serializeRequest ⟨"GET".data, "/ws".data, [], [], []⟩ ++ [1, 2, 3] ∧
    (proxyWebSocket ⟨true, true, true, true, [1, 2, 3], [7, 8]⟩
        ⟨"GET".data, "/ws".data, [], [], []⟩).clientWritten = [7, 8] :=
  relayIsIdentityOnStreams ⟨true, true, true, true, [1, 2, 3], [7, 8]⟩
    ⟨"GET".data, "/ws".data, [], [], []⟩ rfl rfl rfl rfl

/-- C5: when the backend dial fails, the tunnel responds Bad Gateway on the
original connection, the client connection is never hijacked, and no
session state (bytes written, open sockets) persists. -/
theorem dialFailureNeverHijacks (env : TunnelEnv) (r : HttpRequest)
    (h : env.dialOk = false) :
    proxyWebSocket env r =
      { outcome := .badGateway, dialAttempts := 1, hijacked := false,
        backendWritten := [], clientWritten := [],
        backendClosed := false, clientClosed := false } := by
  simp [proxyWebSocket, h]

/-- Closed instance of C5: refused dial yields Bad Gateway with no
hijack. -/
theorem dialFailureNeverHijacks_witness :
    proxyWebSocket ⟨false, true, true, true, [1], [2]⟩
        ⟨"GET".data, "/ws".data, [], [], []⟩ =
      { outcome := .badGateway, dialAttempts := 1, hijacked := false,
        backendWritten := [], clientWritten := [],
        backendClosed := false, clientClosed := false } :=
  dialFailureNeverHijacks ⟨false, true, true, true, [1], [2]⟩
    ⟨"GET".data, "/ws".data, [], [], []⟩ rfl

/-- C6: once the replay step is reached, the bytes placed on the backend
connection begin with the serialized original request (request line,
headers, buffered body) before anything else, and a failed replay write
terminates the session immediately: nothing is relayed in either direction
and both sockets are closed. -/
theorem replayHandshakeVerbatim (env : TunnelEnv) (r : HttpRequest)
    (hd : env.dialOk = true) (hs : env.hijackSupported = true)
    (hh : env.hijackOk = true) :
    (env.writeOk = true →
      ∃ relayed, (proxyWebSocket env r).backendWritten =
        serializeRequest r ++ relayed) ∧
    (env.writeOk = false →
      (proxyWebSocket env r).outcome = .replayFailed ∧
      (proxyWebSocket env r).clientWritten = [] ∧
      (proxyWebSocket env r).backendClosed = true ∧
      (proxyWebSocket env r).clientClosed = true) := by
  constructor
  · intro hw
    exact ⟨ioCopy env.clientStream, by simp [proxyWebSocket, hd, hs, hh, hw]⟩
  · intro hw
    simp [proxyWebSocket, hd, hs, hh, hw]

/-- Closed instance of C6: with a successful replay the backend stream
starts with the serialized request; with a failed replay the session ends
at once. -/
theorem replayHandshakeVerbatim_witness :
    (∃ relayed, (proxyWebSocket ⟨true, true, true, true, [9], []⟩
        ⟨"GET".data, "/ws".data, [], [], []⟩).backendWritten =
      serializeRequest ⟨"GET".data, "/ws".data, [], [], []⟩ ++ relayed) ∧
    ((proxyWebSocket ⟨true, true, true, false, [9], []⟩
        ⟨"GET".data, "/ws".data, [], [], []⟩).outcome = .replayFailed ∧
      (proxyWebSocket ⟨true, true, true, false, [9], []⟩
        ⟨"GET".data, "/ws".data, [], [], []⟩).clientWritten = [] ∧
      (proxyWebSocket ⟨true, true, true, false, [9], []⟩
        ⟨"GET".data, "/ws".data, [], [], []⟩).backendClosed = true ∧
      (proxyWebSocket ⟨true, true, true, false, [9], []⟩
        ⟨"GET".data, "/ws".data, [], [], []⟩).clientClosed = true) :=
  ⟨(replayHandshakeVerbatim ⟨true, true, true, true, [9], []⟩
      ⟨"GET".data, "/ws".data, [], [], []⟩ rfl rfl rfl).1 rfl,
   (replayHandshakeVerbatim ⟨true, true, true, false, [9], []⟩
      ⟨"GET".data, "/ws".data, [], [], []⟩ rfl rfl rfl).2 rfl⟩

/-- C8: when the target URL parses but the backend is unreachable, the
proxy responds Bad Gateway and makes exactly one backend attempt. -/
theorem backendUnreachableBadGateway (env : ProxyEnv) (r : HttpRequest)
    (hparse : env.targetParseOk = true)
    (hdown : env.backendReachable = false) :
    (reverseProxy env r).outcome = .badGateway ∧
      (reverseProxy env r).attempts = 1 := by
  simp [reverseProxy, hparse, hdown]

/-- Closed instance of C8: an unreachable backend yields Bad Gateway after
a single attempt. -/
theorem backendUnreachableBadGateway_witness :
    (reverseProxy ⟨true, false, 200, []⟩
        ⟨"GET".data, "/stock/items".data, [], [], []⟩).outcome = .badGateway ∧
      (reverseProxy ⟨true, false, 200, []⟩
        ⟨"GET".data, "/stock/items".data, [], [], []⟩).attempts = 1 :=
  backendUnreachableBadGateway ⟨true, false, 200, []⟩
    ⟨"GET".data, "/stock/items".data, [], [], []⟩ rfl rfl

/-- C9: `/unknown` is dispatched to Not Found, and in general the mux
answers Not Found exactly on the paths matched by no registered route
pattern: no route silently consumes unmatched paths. -/
theorem unmatchedPathNotFound :
    serveMux gatewayPatterns "/unknown".data = .notFound ∧
    ∀ path : Str, (serveMux gatewayPatterns path = .notFound ↔
      ∀ pat ∈ gatewayPatterns, pathMatch pat path = false) := by
  constructor
  · decide
  · intro path
    constructor
    · intro h
      cases hb : muxBest gatewayPatterns path with
      | none => exact (muxBest_eq_none_iff _ _).mp hb
      | some pat =>
        rw [serveMux, hb] at h
        exact MuxDecision.noConfusion h
    · intro h
      rw [serveMux, (muxBest_eq_none_iff _ _).mpr h]

/-- C10: every path beginning with `/ws` — `/ws` itself, `/ws2`, and any
sub-path — is rewritten by the ReverseProxy-based WebSocket variant to
exactly `/ws`. -/
theorem wsPathAlwaysCollapses (p : Str)
    (h : hasPrefixGo p "/ws".data = true) :
    wsPathRewrite p = "/ws".data := by
  unfold wsPathRewrite
  split
  · rfl
  · simp [h]

/-- Closed instances of C10: `/ws/room/1` and `/ws2/x` both collapse to
`/ws`. -/
theorem wsPathAlwaysCollapses_witness :
    wsPathRewrite "/ws/room/1".data = "/ws".data ∧
      wsPathRewrite "/ws2/x".data = "/ws".data :=
  ⟨wsPathAlwaysCollapses "/ws/room/1".data (by decide),
   wsPathAlwaysCollapses "/ws2/x".data (by decide)⟩
